import Mathlib

/-!
Verification of the two utility scripts of this repository against their
specification.

* `StubCreator` embeds `src/Python/test.py` (the Directory Stub Creator):
  the script lists the working directory, keeps the entries that are
  directories, removes the first element of that list with `pop(0)`, and for
  each remaining directory creates `<cwd>\<dir>\README.md` with `open(_, 'x')`
  when `os.path.isfile` reports no such file, printing `File Created <path>`.

* `Printer` embeds `src/frontend-learn/HTML/print_file.py` (the Folder
  Content Printer): `print_all_files_in_folder` validates the folder with
  `os.path.isdir`, then for each listed entry that is a regular file and
  matches the optional extension filter calls `print_file_contents`, which
  opens the file, prints a banner, the contents and a closing banner, and on
  any exception prints `Error reading file '<path>': <cause>` instead.

Console output is modelled as the list of payload strings passed to `print`;
`Printer.stdoutOf` renders that list to the byte stream `print` produces
(each payload followed by one newline).
-/

namespace StubCreator

/-- The filesystem as the Directory Stub Creator observes and mutates it.
`base` is `os.getcwd()`; `entries` are the names `os.listdir(base)` returns,
in listing order; `isDir` tells whether `os.path.isdir` holds of an entry
name; `readme dir` is the content of the regular file `<base>\<dir>\README.md`
when one exists (`none` when absent). -/
structure FS where
  base : String
  entries : List String
  isDir : String → Bool
  readme : String → Option String

/-- `cur_path` of test.py: the f-string building `<base>\<dir>\README.md`. -/
def cur_path (base dir : String) : String :=
  base ++ "\\" ++ dir ++ "\\README.md"

/-- Line 25 of test.py: the listing filtered to directories, in order. -/
def folder (fs : FS) : List String :=
  fs.entries.filter fs.isDir

/-- One iteration of the loop of test.py (lines 29-34) on state and console
output so far: if `os.path.isfile(cur_path)` fails, create the empty file
with `open(cur_path, 'x')` and print `File Created <cur_path>`. -/
def createStep (acc : FS × List String) (dir : String) : FS × List String :=
  if (acc.1.readme dir).isSome then acc
  else
    ({ acc.1 with readme := fun x => if x = dir then some "" else acc.1.readme x },
     acc.2 ++ ["File Created " ++ cur_path acc.1.base dir])

/-- The `for dir in folder` loop of test.py, run left to right. -/
def createLoop : FS × List String → List String → FS × List String
  | acc, [] => acc
  | acc, dir :: rest => createLoop (createStep acc dir) rest

/-- The whole script body of test.py: filter the listing to directories,
`folder.pop(0)` (an uncaught `IndexError` when the list is empty), then the
creation loop over the remaining directories.  Returns the final filesystem
and the console output, or the uncaught error. -/
def run (fs : FS) : Except String (FS × List String) :=
  match folder fs with
  | [] => Except.error "IndexError: pop from empty list"
  | _ :: rest => Except.ok (createLoop (fs, []) rest)

/-- A working directory with listing `A`, `B`, `C`, all directories, none
holding a README.md. -/
def fsABC : FS :=
  ⟨"/cwd", ["A", "B", "C"], fun _ => true, fun _ => none⟩

/-- The state `run fsABC` reaches: a README.md created in `B` and in `C`. -/
def fsABCAfter : FS :=
  { fsABC with readme := fun x => if x = "C" then some "" else if x = "B" then some "" else none }

/-- A working directory whose listing has files only, no subdirectory. -/
def fsPlainFiles : FS :=
  ⟨"/cwd", ["a.txt", "b.txt"], fun _ => false, fun _ => none⟩

/-- An empty working directory: nothing listed at all. -/
def fsNoEntries : FS :=
  ⟨"/cwd", [], fun _ => false, fun _ => none⟩

/-- Subdirectories `X`, `Y` and `Z` where `Y` already holds a README.md
reading `hello` and the others hold none. -/
def fsMix : FS :=
  ⟨"/cwd", ["X", "Y", "Z"], fun _ => true, fun x => if x = "Y" then some "hello" else none⟩

/-- The state `run fsMix` reaches: a README.md created in `Z`, the one in `Y`
untouched. -/
def fsMixAfter : FS :=
  { fsMix with readme := fun x => if x = "Z" then some "" else fsMix.readme x }

/-- Subdirectories `X` and `Y`, no README.md anywhere. -/
def fsTwo : FS :=
  ⟨"/cwd", ["X", "Y"], fun _ => true, fun _ => none⟩

/-- The state `run fsTwo` reaches: a README.md created in `Y` only. -/
def fsTwoAfter : FS :=
  { fsTwo with readme := fun x => if x = "Y" then some "" else fsTwo.readme x }

/-- Subdirectories `lib` and `docs`, no README.md anywhere. -/
def fsDocs : FS :=
  ⟨"/home", ["lib", "docs"], fun _ => true, fun _ => none⟩

/-- The state `run fsDocs` reaches: a README.md created in `docs` only. -/
def fsDocsAfter : FS :=
  { fsDocs with readme := fun x => if x = "docs" then some "" else fsDocs.readme x }

end StubCreator

namespace Printer

/-- What happens when `print_file_contents` touches a file: `open` succeeds
and `read` returns `content`; `open` itself raises (missing file, permission);
or `open` succeeds and `read` raises (e.g. a decode error).  `err` is the
text of the exception. -/
inductive ReadOutcome where
  | ok (content : String)
  | openFail (err : String)
  | readFail (err : String)
deriving DecidableEq

/-- One entry of the folder listing: its name, whether `os.path.isfile`
holds of the joined path, and what reading it would do. -/
structure Entry where
  name : String
  isFile : Bool
  outcome : ReadOutcome
deriving DecidableEq

/-- Python's `s.endswith(suffix)`: the suffix's characters end the string. -/
def endswith (s suffix : String) : Bool :=
  suffix.data.isSuffixOf s.data

/-- Whether a path string starts with the separator `/`. -/
def startsWithSlash (s : String) : Bool :=
  match s.data with
  | [] => false
  | c :: _ => c == '/'

/-- Whether a path string ends with the separator `/`. -/
def endsWithSlash (s : String) : Bool :=
  match s.data.getLast? with
  | none => false
  | some c => c == '/'

/-- `os.path.join` on a POSIX host, for the two-argument calls the script
makes. -/
def pathJoin (a b : String) : String :=
  if startsWithSlash b then b
  else if a = "" ∨ endsWithSlash a then a ++ b
  else a ++ "/" ++ b

/-- `os.path.basename`: everything after the last separator. -/
def basename (p : String) : String :=
  String.mk ((p.data.reverse.takeWhile (fun c => c != '/')).reverse)

/-- `print_file_contents` of print_file.py, as the list of strings passed to
`print`.  On a successful open and read: the opening banner, the contents,
the closing banner.  An exception from `open` skips all three prints; an
exception from `file.read()` arrives after the opening banner was already
printed.  Either exception is caught and reported as
`Error reading file '<path>': <cause>`. -/
def print_file_contents (file_path : String) (outcome : ReadOutcome) : List String :=
  match outcome with
  | ReadOutcome.ok content =>
      ["\n=== Contents of " ++ basename file_path ++ " ===\n",
       content,
       "\n=== End of " ++ basename file_path ++ " ===\n"]
  | ReadOutcome.openFail err =>
      ["Error reading file '" ++ file_path ++ "': " ++ err]
  | ReadOutcome.readFail err =>
      ["\n=== Contents of " ++ basename file_path ++ " ===\n",
       "Error reading file '" ++ file_path ++ "': " ++ err]

/-- The filter of print_file.py line 19: `extension is None or
filename.endswith(extension)`. -/
def extensionOk : Option String → String → Bool
  | none, _ => true
  | some ext, filename => endswith filename ext

/-- The `for filename in os.listdir(folder_path)` loop of
`print_all_files_in_folder`. -/
def printLoop (folder_path : String) (extension : Option String) : List Entry → List String
  | [] => []
  | e :: rest =>
      (if e.isFile then
        (if extensionOk extension e.name then
          print_file_contents (pathJoin folder_path e.name) e.outcome
        else [])
      else []) ++ printLoop folder_path extension rest

/-- `print_all_files_in_folder` of print_file.py.  `isDirOk` is what
`os.path.isdir(folder_path)` returns; `entries` the listing of the folder.
The result is the list of strings passed to `print`. -/
def print_all_files_in_folder (folder_path : String) (isDirOk : Bool)
    (entries : List Entry) (extension : Option String) : List String :=
  if !isDirOk then ["Error: '" ++ folder_path ++ "' is not a valid directory."]
  else printLoop folder_path extension entries

/-- The byte stream Python's `print` writes for a list of payloads: each
payload followed by one newline. -/
def stdoutOf : List String → String
  | [] => ""
  | s :: rest => s ++ "\n" ++ stdoutOf rest

/-- A readable text file `a.txt`. -/
def entA : Entry := ⟨"a.txt", true, ReadOutcome.ok "alpha"⟩

/-- A file `b.txt` whose `open` succeeds but whose `read` raises a decode
error. -/
def entB : Entry := ⟨"b.txt", true, ReadOutcome.readFail "invalid start byte"⟩

/-- A readable text file `c.txt`. -/
def entC : Entry := ⟨"c.txt", true, ReadOutcome.ok "gamma"⟩

end Printer

open StubCreator Printer

theorem createStep_base (acc : FS × List String) (d : String) :
    (createStep acc d).1.base = acc.1.base := by
  unfold createStep
  split <;> rfl

theorem createStep_entries (acc : FS × List String) (d : String) :
    (createStep acc d).1.entries = acc.1.entries := by
  unfold createStep
  split <;> rfl

theorem createStep_isDir (acc : FS × List String) (d : String) :
    (createStep acc d).1.isDir = acc.1.isDir := by
  unfold createStep
  split <;> rfl

theorem createStep_readme_some (acc : FS × List String) (d d' c : String)
    (h : acc.1.readme d = some c) : (createStep acc d').1.readme d = some c := by
  unfold createStep
  split
  · exact h
  · by_cases hd : d = d'
    · subst hd
      simp [h] at *
    · simpa [hd] using h

theorem createStep_readme_other (acc : FS × List String) (d d' : String)
    (hd : d ≠ d') : (createStep acc d').1.readme d = acc.1.readme d := by
  unfold createStep
  split
  · rfl
  · simp [hd]

theorem createStep_out_mono (acc : FS × List String) (d x : String)
    (h : x ∈ acc.2) : x ∈ (createStep acc d).2 := by
  unfold createStep
  split
  · exact h
  · exact List.mem_append_left _ h

theorem createLoop_base (ds : List String) :
    ∀ acc : FS × List String, (createLoop acc ds).1.base = acc.1.base := by
  induction ds with
  | nil => intro acc; rfl
  | cons d ds ih =>
    intro acc
    calc (createLoop (createStep acc d) ds).1.base
        = (createStep acc d).1.base := ih _
      _ = acc.1.base := createStep_base _ _

theorem createLoop_entries (ds : List String) :
    ∀ acc : FS × List String, (createLoop acc ds).1.entries = acc.1.entries := by
  induction ds with
  | nil => intro acc; rfl
  | cons d ds ih =>
    intro acc
    calc (createLoop (createStep acc d) ds).1.entries
        = (createStep acc d).1.entries := ih _
      _ = acc.1.entries := createStep_entries _ _

theorem createLoop_isDir (ds : List String) :
    ∀ acc : FS × List String, (createLoop acc ds).1.isDir = acc.1.isDir := by
  induction ds with
  | nil => intro acc; rfl
  | cons d ds ih =>
    intro acc
    calc (createLoop (createStep acc d) ds).1.isDir
        = (createStep acc d).1.isDir := ih _
      _ = acc.1.isDir := createStep_isDir _ _

theorem createLoop_readme_some (ds : List String) :
    ∀ (acc : FS × List String) (d c : String), acc.1.readme d = some c →
      (createLoop acc ds).1.readme d = some c := by
  induction ds with
  | nil => intro acc d c h; exact h
  | cons d' ds ih =>
    intro acc d c h
    exact ih _ d c (createStep_readme_some acc d d' c h)

theorem createLoop_readme_not_mem (ds : List String) :
    ∀ (acc : FS × List String) (d : String), d ∉ ds →
      (createLoop acc ds).1.readme d = acc.1.readme d := by
  induction ds with
  | nil => intro acc d _; rfl
  | cons d' ds ih =>
    intro acc d h
    have h1 : d ≠ d' := fun e => h (e ▸ List.mem_cons_self d' ds)
    have h2 : d ∉ ds := fun e => h (List.mem_cons_of_mem d' e)
    calc (createLoop (createStep acc d') ds).1.readme d
        = (createStep acc d').1.readme d := ih _ d h2
      _ = acc.1.readme d := createStep_readme_other acc d d' h1

theorem createLoop_out_mono (ds : List String) :
    ∀ (acc : FS × List String) (x : String), x ∈ acc.2 →
      x ∈ (createLoop acc ds).2 := by
  induction ds with
  | nil => intro acc x h; exact h
  | cons d ds ih =>
    intro acc x h
    exact ih _ x (createStep_out_mono acc d x h)

theorem createLoop_creates (ds : List String) :
    ∀ (acc : FS × List String) (d : String), d ∈ ds → acc.1.readme d = none →
      (createLoop acc ds).1.readme d = some "" ∧
        ("File Created " ++ cur_path acc.1.base d) ∈ (createLoop acc ds).2 := by
  induction ds with
  | nil => intro acc d h; exact absurd h (List.not_mem_nil d)
  | cons d' ds ih =>
    intro acc d hmem hnone
    by_cases hd : d = d'
    · subst hd
      have hstep : createStep acc d =
          ({ acc.1 with readme := fun x => if x = d then some "" else acc.1.readme x },
           acc.2 ++ ["File Created " ++ cur_path acc.1.base d]) := by
        unfold createStep
        rw [if_neg]
        rw [hnone]
        simp
      have h1 : (createStep acc d).1.readme d = some "" := by
        rw [hstep]; simp
      have h2 : ("File Created " ++ cur_path acc.1.base d) ∈ (createStep acc d).2 := by
        rw [hstep]; simp
      exact ⟨createLoop_readme_some ds (createStep acc d) d "" h1,
             createLoop_out_mono ds (createStep acc d) _ h2⟩
    · rcases List.mem_cons.mp hmem with h | h
      · exact absurd h hd
      · have hnone' : (createStep acc d').1.readme d = none := by
          rw [createStep_readme_other acc d d' hd]; exact hnone
        have := ih (createStep acc d') d h hnone'
        rwa [createStep_base] at this

theorem createLoop_readme_isSome (ds : List String) :
    ∀ (acc : FS × List String) (d : String), d ∈ ds →
      ((createLoop acc ds).1.readme d).isSome := by
  intro acc d h
  cases hr : acc.1.readme d with
  | some c => rw [createLoop_readme_some ds acc d c hr]; rfl
  | none => rw [(createLoop_creates ds acc d h hr).1]; rfl

theorem createLoop_noop (ds : List String) :
    ∀ acc : FS × List String, (∀ d ∈ ds, (acc.1.readme d).isSome) →
      createLoop acc ds = acc := by
  induction ds with
  | nil => intro acc _; rfl
  | cons d ds ih =>
    intro acc h
    have hstep : createStep acc d = acc := by
      unfold createStep
      rw [if_pos (h d (List.mem_cons_self d ds))]
    calc createLoop (createStep acc d) ds
        = createLoop acc ds := by rw [hstep]
      _ = acc := ih acc (fun d' hd' => h d' (List.mem_cons_of_mem d hd'))

theorem run_folder_nil (fs : FS) (hf : folder fs = []) :
    run fs = Except.error "IndexError: pop from empty list" := by
  unfold run
  rw [hf]

theorem run_folder_cons (fs : FS) (f : String) (rest : List String)
    (hf : folder fs = f :: rest) :
    run fs = Except.ok (createLoop (fs, []) rest) := by
  unfold run
  rw [hf]

/-- C9: when the working-directory listing holds no subdirectory, the
Directory Stub Creator does not complete as a no-op: `folder.pop(0)` raises
an uncaught `IndexError` before any `os.path.isfile` check or file creation
is reached, so `run` returns the error and no new filesystem state. -/
theorem creator_index_error_on_no_subdirs (fs : FS) (h : folder fs = []) :
    run fs = Except.error "IndexError: pop from empty list" :=
  run_folder_nil fs h

theorem creator_index_error_on_no_subdirs_witness :
    folder fsNoEntries = [] ∧
      run fsNoEntries = Except.error "IndexError: pop from empty list" :=
  ⟨rfl, creator_index_error_on_no_subdirs fsNoEntries rfl⟩

/-- C2: the Directory Stub Creator never overwrites an existing README.md.
Whatever content `c` a subdirectory's README.md holds before a successful
run (in particular a non-empty one), it holds the same content afterwards. -/
theorem creator_never_overwrites (fs fs1 : FS) (out1 : List String) (d c : String)
    (h : fs.readme d = some c) (hrun : run fs = Except.ok (fs1, out1)) :
    fs1.readme d = some c := by
  cases hf : folder fs with
  | nil =>
    rw [run_folder_nil fs hf] at hrun
    exact Except.noConfusion hrun
  | cons f rest =>
    rw [run_folder_cons fs f rest hf] at hrun
    injection hrun with hloop
    have hsome := createLoop_readme_some rest (fs, []) d c h
    rw [hloop] at hsome
    exact hsome

theorem creator_never_overwrites_witness :
    fsMix.readme "Y" = some "hello" ∧
      run fsMix = Except.ok (fsMixAfter, ["File Created /cwd\\Z\\README.md"]) ∧
      fsMixAfter.readme "Y" = some "hello" :=
  ⟨rfl, rfl,
   creator_never_overwrites fsMix fsMixAfter ["File Created /cwd\\Z\\README.md"]
     "Y" "hello" rfl rfl⟩

/-- C1: the creator skips exactly the first entry of the directory listing
and processes every remaining one.  When the listing of subdirectories is
`[a, b, c]` in order (with `a` distinct from the others), a successful run
leaves the README.md state of `a` untouched and, `b` and `c` lacking one,
creates one in `b` and one in `c`. -/
theorem creator_skips_first_and_fills_rest (fs fs1 : FS) (out1 : List String)
    (a b c : String) (hf : folder fs = [a, b, c])
    (hab : a ≠ b) (hac : a ≠ c)
    (hB : fs.readme b = none) (hC : fs.readme c = none)
    (hrun : run fs = Except.ok (fs1, out1)) :
    fs1.readme a = fs.readme a ∧ fs1.readme b = some "" ∧ fs1.readme c = some "" := by
  rw [run_folder_cons fs a [b, c] hf] at hrun
  injection hrun with hloop
  refine ⟨?_, ?_, ?_⟩
  · have hnot : a ∉ [b, c] := by simp [hab, hac]
    have h := createLoop_readme_not_mem [b, c] (fs, []) a hnot
    rw [hloop] at h
    exact h
  · have h := (createLoop_creates [b, c] (fs, []) b (by simp) hB).1
    rw [hloop] at h
    exact h
  · have h := (createLoop_creates [b, c] (fs, []) c (by simp) hC).1
    rw [hloop] at h
    exact h

theorem creator_skips_first_and_fills_rest_witness :
    folder fsABC = ["A", "B", "C"] ∧
      fsABC.readme "B" = none ∧ fsABC.readme "C" = none ∧
      run fsABC = Except.ok (fsABCAfter,
        ["File Created /cwd\\B\\README.md", "File Created /cwd\\C\\README.md"]) ∧
      (fsABCAfter.readme "A" = fsABC.readme "A" ∧
        fsABCAfter.readme "B" = some "" ∧ fsABCAfter.readme "C" = some "") :=
  ⟨rfl, rfl, rfl, rfl,
   creator_skips_first_and_fills_rest fsABC fsABCAfter
     ["File Created /cwd\\B\\README.md", "File Created /cwd\\C\\README.md"]
     "A" "B" "C" rfl (by decide) (by decide) rfl rfl rfl⟩

/-- C7: for a directory `d` retained after the skip, when no file exists at
the candidate path `cur_path fs.base d` (the f-string `<cwd>\<dir>\README.md`),
a successful run creates an empty file there (content `""`) and prints
`File Created <path>` on the console. -/
theorem creator_creates_empty_readme_and_reports (fs fs1 : FS) (out1 : List String)
    (f d : String) (rest : List String)
    (hf : folder fs = f :: rest) (hd : d ∈ rest) (hnone : fs.readme d = none)
    (hrun : run fs = Except.ok (fs1, out1)) :
    fs1.readme d = some "" ∧ ("File Created " ++ cur_path fs.base d) ∈ out1 := by
  rw [run_folder_cons fs f rest hf] at hrun
  injection hrun with hloop
  have h := createLoop_creates rest (fs, []) d hd hnone
  rw [hloop] at h
  exact h

theorem creator_creates_empty_readme_and_reports_witness :
    folder fsDocs = "lib" :: ["docs"] ∧
      "docs" ∈ ["docs"] ∧ fsDocs.readme "docs" = none ∧
      run fsDocs = Except.ok (fsDocsAfter, ["File Created /home\\docs\\README.md"]) ∧
      (fsDocsAfter.readme "docs" = some "" ∧
        "File Created /home\\docs\\README.md" ∈ ["File Created /home\\docs\\README.md"]) :=
  ⟨rfl, by decide, rfl, rfl,
   creator_creates_empty_readme_and_reports fsDocs fsDocsAfter
     ["File Created /home\\docs\\README.md"] "lib" "docs" ["docs"]
     rfl (by decide) rfl rfl⟩

/-- C3 counterexample: a starting state whose listing holds regular files but
no subdirectory.  Running the creator there raises the `pop(0)` IndexError,
so the claim's clause that for every starting filesystem state the runs
raise no errors is false at this input. -/
theorem creator_twice_errors_without_subdirs :
    run fsPlainFiles = Except.error "IndexError: pop from empty list" := rfl

/-- C3 amended: whenever a run of the Directory Stub Creator succeeds (which
is exactly when the listing holds at least one subdirectory), running it
again from the resulting state succeeds, changes nothing, and creates and
prints nothing - the filesystem state after two runs equals the state after
one. -/
theorem creator_idempotent_after_success (fs fs1 : FS) (out1 : List String)
    (hrun : run fs = Except.ok (fs1, out1)) :
    run fs1 = Except.ok (fs1, []) := by
  cases hf : folder fs with
  | nil =>
    rw [run_folder_nil fs hf] at hrun
    exact Except.noConfusion hrun
  | cons f rest =>
    rw [run_folder_cons fs f rest hf] at hrun
    injection hrun with hloop
    have h1 : (createLoop (fs, []) rest).1 = fs1 := by rw [hloop]
    have hent : fs1.entries = fs.entries := by
      rw [← h1]
      exact createLoop_entries rest (fs, [])
    have hdir : fs1.isDir = fs.isDir := by
      rw [← h1]
      exact createLoop_isDir rest (fs, [])
    have hf1 : folder fs1 = f :: rest := by
      unfold folder
      rw [hent, hdir]
      exact hf
    rw [run_folder_cons fs1 f rest hf1]
    have hall : ∀ d ∈ rest, ((fs1, ([] : List String)).1.readme d).isSome := by
      intro d hd
      have h2 := createLoop_readme_isSome rest (fs, []) d hd
      rw [h1] at h2
      exact h2
    rw [createLoop_noop rest (fs1, []) hall]

theorem creator_idempotent_after_success_witness :
    run fsTwo = Except.ok (fsTwoAfter, ["File Created /cwd\\Y\\README.md"]) ∧
      run fsTwoAfter = Except.ok (fsTwoAfter, []) :=
  ⟨rfl,
   creator_idempotent_after_success fsTwo fsTwoAfter
     ["File Created /cwd\\Y\\README.md"] rfl⟩

theorem printLoop_append (p : String) (ext : Option String) (l1 l2 : List Entry) :
    printLoop p ext (l1 ++ l2) = printLoop p ext l1 ++ printLoop p ext l2 := by
  induction l1 with
  | nil => rfl
  | cons e rest ih =>
    rw [List.cons_append, printLoop, printLoop, ih, List.append_assoc]

/-- C4: with a valid folder, the printer's output is exactly the
concatenation, in listing order, of the per-file output of those entries
that are regular files and pass the extension filter (every regular file
when no filter is supplied); subdirectories and non-matching names
contribute nothing. -/
theorem printer_prints_exactly_matching_files (p : String) (entries : List Entry)
    (ext : Option String) :
    print_all_files_in_folder p true entries ext =
      (entries.filter (fun e => e.isFile && extensionOk ext e.name)).flatMap
        (fun e => print_file_contents (pathJoin p e.name) e.outcome) := by
  show printLoop p ext entries =
    (entries.filter (fun e => e.isFile && extensionOk ext e.name)).flatMap
      (fun e => print_file_contents (pathJoin p e.name) e.outcome)
  induction entries with
  | nil => rfl
  | cons e rest ih =>
    rw [printLoop, List.filter_cons]
    cases hf : e.isFile <;> cases hm : extensionOk ext e.name <;>
      simp [hf, hm, ih]

/-- C5: a file whose open or read raises does not abort the batch: the
output decomposes into the output for the entries before it, the error
report for the failing file, and the unchanged output for the entries after
it, and the report names the file's path and the exception's text. -/
theorem printer_isolates_failing_file (p : String) (pre post : List Entry) (e : Entry)
    (ext : Option String) (err : String)
    (hf : e.isFile = true) (hm : extensionOk ext e.name = true)
    (hfail : e.outcome = ReadOutcome.openFail err ∨ e.outcome = ReadOutcome.readFail err) :
    print_all_files_in_folder p true (pre ++ e :: post) ext =
      print_all_files_in_folder p true pre ext ++
        print_file_contents (pathJoin p e.name) e.outcome ++
        print_all_files_in_folder p true post ext ∧
    ("Error reading file '" ++ pathJoin p e.name ++ "': " ++ err) ∈
      print_all_files_in_folder p true (pre ++ e :: post) ext := by
  have hdec : print_all_files_in_folder p true (pre ++ e :: post) ext =
      print_all_files_in_folder p true pre ext ++
        print_file_contents (pathJoin p e.name) e.outcome ++
        print_all_files_in_folder p true post ext := by
    show printLoop p ext (pre ++ e :: post) =
      printLoop p ext pre ++ print_file_contents (pathJoin p e.name) e.outcome ++
        printLoop p ext post
    rw [printLoop_append, printLoop]
    simp [hf, hm, List.append_assoc]
  have hmem : ("Error reading file '" ++ pathJoin p e.name ++ "': " ++ err) ∈
      print_file_contents (pathJoin p e.name) e.outcome := by
    rcases hfail with h | h <;> rw [h] <;> simp [print_file_contents]
  refine ⟨hdec, ?_⟩
  rw [hdec]
  exact List.mem_append_left _ (List.mem_append_right _ hmem)

theorem printer_isolates_failing_file_witness :
    entB.isFile = true ∧ extensionOk (some ".txt") entB.name = true ∧
      entB.outcome = ReadOutcome.readFail "invalid start byte" ∧
      (print_all_files_in_folder "site" true ([entA] ++ entB :: [entC]) (some ".txt") =
        print_all_files_in_folder "site" true [entA] (some ".txt") ++
          print_file_contents (pathJoin "site" entB.name) entB.outcome ++
          print_all_files_in_folder "site" true [entC] (some ".txt") ∧
      ("Error reading file '" ++ pathJoin "site" entB.name ++ "': " ++ "invalid start byte") ∈
        print_all_files_in_folder "site" true ([entA] ++ entB :: [entC]) (some ".txt")) :=
  ⟨rfl, rfl, rfl,
   printer_isolates_failing_file "site" [entA] [entC] entB (some ".txt")
     "invalid start byte" rfl rfl (Or.inr rfl)⟩

/-- C6: when `os.path.isdir` rejects the folder path, the printer's whole
output is the single line naming that path, with no file banner, and the
function returns instead of raising. -/
theorem printer_invalid_folder_single_error (p : String) (entries : List Entry)
    (ext : Option String) :
    print_all_files_in_folder p false entries ext =
      ["Error: '" ++ p ++ "' is not a valid directory."] := rfl

/-- C8 counterexample: for the file `site/a.txt` with contents `hello`, the
byte stream the printer writes is not the claimed exact frame of banner,
blank line, contents, blank line, closing banner: the script's `print`
payloads carry leading and trailing newlines, so an extra blank line
precedes the opening banner and follows the closing one. -/
theorem printer_banner_exact_claim_cex :
    stdoutOf (print_file_contents "site/a.txt" (ReadOutcome.ok "hello")) ≠
      "=== Contents of a.txt ===\n\nhello\n\n=== End of a.txt ===\n" := by
  decide

/-- C8 amended: for every successfully read file, the printed byte stream is
a blank line, the opening banner line with the file's base name, a blank
line, the contents, a blank line, the closing banner line, and a final blank
line. -/
theorem printer_banner_actual_layout (fp c : String) :
    stdoutOf (print_file_contents fp (ReadOutcome.ok c)) =
      "\n=== Contents of " ++ basename fp ++ " ===\n\n" ++ c ++
        "\n\n=== End of " ++ basename fp ++ " ===\n\n" := by
  apply String.ext
  simp [stdoutOf, print_file_contents, String.data_append]

/-- C10: when `open` succeeds but `read` raises, the printer's output for
that file is exactly the opening banner followed by the error message, and
the closing banner for that file never appears: a failing file leaves a
partial, unclosed banner. -/
theorem printer_partial_banner_on_read_failure (fp err : String) :
    print_file_contents fp (ReadOutcome.readFail err) =
      ["\n=== Contents of " ++ basename fp ++ " ===\n",
       "Error reading file '" ++ fp ++ "': " ++ err] ∧
    ("\n=== End of " ++ basename fp ++ " ===\n") ∉
      print_file_contents fp (ReadOutcome.readFail err) := by
  refine ⟨rfl, ?_⟩
  intro hmem
  simp only [print_file_contents, List.mem_cons, List.not_mem_nil, or_false] at hmem
  rcases hmem with h | h
  · have h2 := congrArg String.data h
    simp [String.data_append] at h2
  · have h2 := congrArg String.data h
    simp [String.data_append] at h2
